import Mathlib

/-!
Verification of the lock-acquisition protocol of `shared_state.h` and the
execution-time watcher of `verifyexecutiontime.cpp` from the
gustafsson/backtrace repository.

The mutex (`shared_state_mutex`) is modelled by an oracle recording the
outcome of each lock attempt the code may make during one acquisition:
the initial non-blocking attempt, the first timed attempt and the second
timed attempt (the deadlock probe).  An indefinite blocking acquisition
(`lock` / `lock_shared`) always eventually succeeds and needs no oracle bit.
Each acquisition function returns the list of observable events it performs,
in order, together with its result.  Shared (read) and exclusive (write)
mutex operations are tagged with a mode so that the two guard types can be
told apart in the traces.
-/

/-- Mode of a mutex operation: shared corresponds to the `_shared` mutex
operations used by `read_ptr`, exclusive to the plain operations used by
`write_ptr`. -/
inductive LockMode where
  | sharedMode
  | exclusiveMode
deriving DecidableEq

/-- Observable events performed by an acquisition or release, in program
order. `readTimeout` models the read `int timeout_ms = d->timeout_ms;`,
`tryLock` a non-blocking `try_lock/try_lock_shared`, `lockBlocking` the
indefinite `lock/lock_shared`, `tryLockFor` a timed
`try_lock_for/try_lock_shared_for` with its millisecond budget,
`unlockEv` an `unlock/unlock_shared`, `throwLockFailed` the
`SHARED_STATE_THROW_EXCEPTION(lock_failed{} ...)` with its two
`error_info` payloads, `startWatcher` a `VerifyExecutionTime::start` call
and `resetWatcher` the destruction of a held watcher by `pc.reset ()`. -/
inductive Event where
  | readTimeout (timeout_ms : Int)
  | tryLock (m : LockMode) (success : Bool)
  | lockBlocking (m : LockMode)
  | tryLockFor (m : LockMode) (timeout_ms : Int) (success : Bool)
  | unlockEv (m : LockMode)
  | throwLockFailed (timeout_ms : Int) (try_again : Bool)
  | startWatcher (verify_execution_time_ms : Int)
  | resetWatcher
deriving DecidableEq

/-- Event is a non-blocking lock attempt. -/
def Event.isTryLock : Event → Bool
  | .tryLock _ _ => true
  | _ => false

/-- Event is an indefinite blocking acquisition. -/
def Event.isBlockingWait : Event → Bool
  | .lockBlocking _ => true
  | _ => false

/-- Event is a timed lock attempt. -/
def Event.isTimedWait : Event → Bool
  | .tryLockFor _ _ _ => true
  | _ => false

/-- Event is the construction and raising of a `lock_failed` error. -/
def Event.isThrow : Event → Bool
  | .throwLockFailed _ _ => true
  | _ => false

/-- Event is a `VerifyExecutionTime::start` call. -/
def Event.isStartWatcher : Event → Bool
  | .startWatcher _ => true
  | _ => false

/-- Event is the destruction of a held execution-time watcher. -/
def Event.isResetWatcher : Event → Bool
  | .resetWatcher => true
  | _ => false

/-- Event is the read of the configured timeout. -/
def Event.isReadTimeout : Event → Bool
  | .readTimeout _ => true
  | _ => false

/-- Event is a mutex release in the given mode. -/
def Event.isUnlockOf (m : LockMode) : Event → Bool
  | .unlockEv m2 => m == m2
  | _ => false

/-- Event makes the thread wait for a positive (or unbounded) amount of
time: an indefinite blocking acquisition, or a timed attempt whose budget
is strictly positive.  A `tryLockFor` with budget 0 refuses to block, like
`try_lock`. -/
def Event.hasPositiveWait : Event → Bool
  | .lockBlocking _ => true
  | .tryLockFor _ t _ => decide (0 < t)
  | _ => false

/-- Oracle for the outcomes of the (at most three) fallible lock attempts a
single acquisition can make on the `shared_state_mutex`: the initial
non-blocking attempt, the first timed attempt, and the second timed attempt
of the deadlock probe. -/
structure MutexOracle where
  try_lock : Bool
  try_lock_for_1 : Bool
  try_lock_for_2 : Bool
deriving DecidableEq

/-- Traits object whose accessors may be called repeatedly; the field gives
the value returned by the k-th call of each accessor (0-based), so that a
traits whose `timeout_ms()` varies between calls can be expressed.
Models the `Traits` argument of the `shared_state_details` constructor. -/
structure TraitsCalls where
  timeout_ms : Nat → Int
  verify_execution_time_ms : Nat → Int
  report_func : Nat → Option Unit

/-- The per-cell `shared_state_details` record: the three configuration
values cached as `const` fields (`shared_state.h` lines 180-183).  The
`report_func` function object is inert for the verified claims and is
modelled as an optional marker (`none` = null function). -/
structure shared_state_details where
  timeout_ms : Int
  verify_execution_time_ms : Int
  report_func : Option Unit
deriving DecidableEq

/-- The `shared_state_details` constructor (`shared_state.h` lines 170-175):
each traits accessor is called exactly once, at construction (call index 0),
and its value is cached in a `const` field. -/
def shared_state_details_mk (traits : TraitsCalls) : shared_state_details :=
  { timeout_ms := traits.timeout_ms 0,
    verify_execution_time_ms := traits.verify_execution_time_ms 0,
    report_func := traits.report_func 0 }

/-- The default traits (`shared_state_traits_default`, non-debug build):
`timeout_ms() = 100`, `verify_execution_time_ms() = -1`, null report
function. -/
def shared_state_traits_default : TraitsCalls :=
  { timeout_ms := fun _ => 100,
    verify_execution_time_ms := fun _ => -1,
    report_func := fun _ => none }

/-- Guard state common to `read_ptr` and `write_ptr`: `px` models the raw
pointer (`true` = non-null, i.e. the guard is accessible and holds the
lock), `pc` models the `VerifyExecutionTime::ptr` (`true` = a watcher is
held). -/
structure guard_state where
  px : Bool
  pc : Bool
deriving DecidableEq

/-- Accessor model: `get ()` (also `operator->` and `operator*`) exposes the
stored pointer; `true` = non-null. -/
def guard_state.get (g : guard_state) : Bool := g.px

/-- Accessor model: `explicit operator bool() const` returns whether `px`
is non-null. -/
def guard_state.toBool (g : guard_state) : Bool := g.px

/-- Result of a throwing acquisition: either a guard, or a raised
`lock_failed` carrying its `timeout_value` and `try_again_value`
`error_info` payloads. -/
inductive LockOutcome where
  | acquired (g : guard_state)
  | lockFailed (timeout_ms : Int) (try_again : Bool)
deriving DecidableEq

/-- Whether the acquisition returned a guard. -/
def LockOutcome.isAcquired : LockOutcome → Bool
  | .acquired _ => true
  | .lockFailed _ _ => false

/-- The `pc` watcher flag of the returned guard (`false` when the
acquisition failed: no guard exists). -/
def LockOutcome.guardPc : LockOutcome → Bool
  | .acquired g => g.pc
  | .lockFailed _ _ => false

/-- The conditional watcher start
`if (0<d->verify_execution_time_ms) pc = VerifyExecutionTime::start (...)`
(`shared_state.h` lines 511-512, 547-548, 625-626, 655-656): the events it
performs and the resulting `pc` flag. -/
def startWatcherIf (d : shared_state_details) : List Event × Bool :=
  if 0 < d.verify_execution_time_ms
  then ([Event.startWatcher d.verify_execution_time_ms], true)
  else ([], false)

/-- `shared_state::read_ptr::lock` (`shared_state.h` lines 516-549), the
timed acquisition path used by `read()`.  Reads `timeout_ms` once from the
details, then: non-blocking attempt; else indefinite blocking acquisition
when `timeout_ms < 0`; else a timed attempt; else the deadlock probe (a
second timed attempt with the same budget), releasing the lock if the
second attempt got it, and raising `lock_failed` with the timeout value and
the second attempt's outcome.  On every successful path the watcher start
runs afterwards. -/
def read_ptr_lock (d : shared_state_details) (o : MutexOracle) :
    List Event × LockOutcome :=
  let timeout_ms := d.timeout_ms
  if o.try_lock then
    ([Event.readTimeout timeout_ms, Event.tryLock .sharedMode true]
       ++ (startWatcherIf d).1,
     .acquired ⟨true, (startWatcherIf d).2⟩)
  else if timeout_ms < 0 then
    ([Event.readTimeout timeout_ms, Event.tryLock .sharedMode false,
      Event.lockBlocking .sharedMode] ++ (startWatcherIf d).1,
     .acquired ⟨true, (startWatcherIf d).2⟩)
  else if o.try_lock_for_1 then
    ([Event.readTimeout timeout_ms, Event.tryLock .sharedMode false,
      Event.tryLockFor .sharedMode timeout_ms true] ++ (startWatcherIf d).1,
     .acquired ⟨true, (startWatcherIf d).2⟩)
  else
    let try_again := o.try_lock_for_2
    ([Event.readTimeout timeout_ms, Event.tryLock .sharedMode false,
      Event.tryLockFor .sharedMode timeout_ms false,
      Event.tryLockFor .sharedMode timeout_ms try_again]
       ++ (if try_again then [Event.unlockEv .sharedMode] else [])
       ++ [Event.throwLockFailed timeout_ms try_again],
     .lockFailed timeout_ms try_again)

/-- `shared_state::write_ptr::lock` (`shared_state.h` lines 631-657): same
decision tree as `read_ptr_lock` against the exclusive mutex operations. -/
def write_ptr_lock (d : shared_state_details) (o : MutexOracle) :
    List Event × LockOutcome :=
  let timeout_ms := d.timeout_ms
  if o.try_lock then
    ([Event.readTimeout timeout_ms, Event.tryLock .exclusiveMode true]
       ++ (startWatcherIf d).1,
     .acquired ⟨true, (startWatcherIf d).2⟩)
  else if timeout_ms < 0 then
    ([Event.readTimeout timeout_ms, Event.tryLock .exclusiveMode false,
      Event.lockBlocking .exclusiveMode] ++ (startWatcherIf d).1,
     .acquired ⟨true, (startWatcherIf d).2⟩)
  else if o.try_lock_for_1 then
    ([Event.readTimeout timeout_ms, Event.tryLock .exclusiveMode false,
      Event.tryLockFor .exclusiveMode timeout_ms true] ++ (startWatcherIf d).1,
     .acquired ⟨true, (startWatcherIf d).2⟩)
  else
    let try_again := o.try_lock_for_2
    ([Event.readTimeout timeout_ms, Event.tryLock .exclusiveMode false,
      Event.tryLockFor .exclusiveMode timeout_ms false,
      Event.tryLockFor .exclusiveMode timeout_ms try_again]
       ++ (if try_again then [Event.unlockEv .exclusiveMode] else [])
       ++ [Event.throwLockFailed timeout_ms try_again],
     .lockFailed timeout_ms try_again)

/-- `read_ptr (const shared_state& vp, no_lock_failed)` (`shared_state.h`
lines 501-514), the constructor used by `try_read()`: a single non-blocking
attempt; on failure `px = 0`; on success the conditional watcher start
runs.  No timer, no error construction. -/
def try_read (d : shared_state_details) (o : MutexOracle) :
    List Event × guard_state :=
  if !o.try_lock then
    ([Event.tryLock .sharedMode false], ⟨false, false⟩)
  else
    ([Event.tryLock .sharedMode true] ++ (startWatcherIf d).1,
     ⟨true, (startWatcherIf d).2⟩)

/-- `write_ptr (const shared_state& vp, no_lock_failed)` (`shared_state.h`
lines 614-628), the constructor used by `try_write()`: exclusive analogue
of `try_read`. -/
def try_write (d : shared_state_details) (o : MutexOracle) :
    List Event × guard_state :=
  if !o.try_lock then
    ([Event.tryLock .exclusiveMode false], ⟨false, false⟩)
  else
    ([Event.tryLock .exclusiveMode true] ++ (startWatcherIf d).1,
     ⟨true, (startWatcherIf d).2⟩)

/-- `shared_state::read_ptr::unlock` (`shared_state.h` lines 479-487):
`if (px) { l.unlock_shared (); pc.reset (); } px = 0;`.  Takes the guard
state together with whether this guard currently holds the mutex, and
returns the new guard state, the new hold flag, and the events performed
(`resetWatcher` only when a watcher was actually held). -/
def read_ptr_unlock (g : guard_state) (held : Bool) :
    guard_state × Bool × List Event :=
  if g.px then
    (⟨false, false⟩, false,
     [Event.unlockEv .sharedMode]
       ++ (if g.pc then [Event.resetWatcher] else []))
  else
    (⟨false, g.pc⟩, held, [])

/-- `shared_state::write_ptr::unlock` (`shared_state.h` lines 591-599):
exclusive analogue of `read_ptr_unlock`. -/
def write_ptr_unlock (g : guard_state) (held : Bool) :
    guard_state × Bool × List Event :=
  if g.px then
    (⟨false, false⟩, false,
     [Event.unlockEv .exclusiveMode]
       ++ (if g.pc then [Event.resetWatcher] else []))
  else
    (⟨false, g.pc⟩, held, [])

/-- `shared_state::read_ptr::~read_ptr` (`shared_state.h` lines 469-472):
the body is exactly `unlock ();` and — unlike
`VerifyExecutionTime::~VerifyExecutionTime` — contains no
`std::uncaught_exception` test, so it behaves the same whether or not the
destructor runs during stack unwinding; the `unwinding` parameter records
that context and is deliberately unused. -/
def read_ptr_destructor (unwinding : Bool) (g : guard_state) (held : Bool) :
    guard_state × Bool × List Event :=
  read_ptr_unlock g held

/-- `shared_state::write_ptr::~write_ptr` (`shared_state.h` lines 582-584):
exclusive analogue of `read_ptr_destructor`; again no unwinding test. -/
def write_ptr_destructor (unwinding : Bool) (g : guard_state) (held : Bool) :
    guard_state × Bool × List Event :=
  write_ptr_unlock g held

/-- The cell handle: `shared_state` holds `std::shared_ptr`s to the value
and to the details; `none` models a null pointer. -/
structure shared_state_model where
  p : Option Unit
  d : Option shared_state_details
deriving DecidableEq

/-- `explicit operator bool() const { return p.get (); }`
(`shared_state.h` line 392). -/
def shared_state_model.toBool (s : shared_state_model) : Bool := s.p.isSome

/-- `shared_state::weak_ptr`: weak references to the details and to the
value.  Each field here is the result that `std::weak_ptr::lock ()` would
return for that half (`none` = that half has been dropped). -/
structure weak_ptr where
  data : Option shared_state_details
  p : Option Unit
deriving DecidableEq

/-- `shared_state::weak_ptr::lock` (`shared_state.h` lines 402-410):
upgrades both weak halves; only when both are alive is a usable cell
returned, otherwise a cell with both pointers null. -/
def weak_ptr.lock (w : weak_ptr) : shared_state_model :=
  let datap := w.data
  let pp := w.p
  if pp.isSome && datap.isSome then ⟨pp, datap⟩
  else ⟨none, none⟩

/-- `VerifyExecutionTime::~VerifyExecutionTime`
(`verifyexecutiontime.cpp` lines 54-66): returns early when
`std::uncaught_exception ()` holds; otherwise reads the elapsed time and
invokes `report_func_(expected_time_, execution_time)` exactly when
`expected_time_ < execution_time`.  The result is the invocation performed,
if any.  Times are modelled as rationals; the C++ code compares a `float`
and a `double` with the same strict order. -/
def VerifyExecutionTime_destructor (uncaught_exception : Bool)
    (expected_time execution_time : ℚ) : Option (ℚ × ℚ) :=
  if uncaught_exception then none
  else if expected_time < execution_time then
    some (expected_time, execution_time)
  else none

/-- The timeout value an acquisition actually uses: every acquisition on a
cell built from `traits` reads `d->timeout_ms` (`shared_state.h` lines 517
and 632), the `const` field cached by the single `traits.timeout_ms ()`
call in the `shared_state_details` constructor — independent of the
acquisition index. -/
def timeout_ms_usedByAcquisition (traits : TraitsCalls)
    (acquisition : Nat) : Int :=
  (shared_state_details_mk traits).timeout_ms

/-- The timeout selection as the specification words it (for comparison
with `timeout_ms_usedByAcquisition`): each acquisition obtains its timeout
by a fresh call to the traits' timeout accessor, so the n-th acquisition
sees the n-th call's value. -/
def timeout_ms_freshPerAcquisition (traits : TraitsCalls)
    (acquisition : Nat) : Int :=
  traits.timeout_ms acquisition

/-- Traits whose `timeout_ms ()` returns the call index: call 0 returns 0,
call 1 returns 1, and so on. -/
def traitsVarying : TraitsCalls :=
  { timeout_ms := fun k => (k : Int),
    verify_execution_time_ms := fun _ => -1,
    report_func := fun _ => none }

/-- The default details: cached values of `shared_state_traits_default`. -/
def detailsDefault : shared_state_details :=
  shared_state_details_mk shared_state_traits_default

example : detailsDefault = ⟨100, -1, none⟩ := by decide

example :
    read_ptr_lock ⟨0, -1, none⟩ ⟨true, false, false⟩
      = ([.readTimeout 0, .tryLock .sharedMode true],
         .acquired ⟨true, false⟩) := by decide

example :
    (read_ptr_lock detailsDefault ⟨false, false, true⟩).2
      = .lockFailed 100 true := by decide

/-- Claim C1: for every `read()` or `write()` acquisition whose first timed
lock attempt times out, exactly one second timed attempt with the same
timeout budget is made, after which `lock_failed` is raised
unconditionally; when the second attempt succeeded the lock is released
before raising; and the raised `lock_failed` carries the exceeded timeout
value and a `try_again` flag equal to the second attempt's outcome.  The
trace equations exhibit the order: failed timed attempt, one more timed
attempt with the same budget, conditional release, raise. -/
theorem deadlock_probe_second_attempt (d : shared_state_details)
    (o : MutexOracle) (h1 : o.try_lock = false)
    (h2 : ¬ d.timeout_ms < 0) (h3 : o.try_lock_for_1 = false) :
    (read_ptr_lock d o =
      ([Event.readTimeout d.timeout_ms, Event.tryLock .sharedMode false,
        Event.tryLockFor .sharedMode d.timeout_ms false,
        Event.tryLockFor .sharedMode d.timeout_ms o.try_lock_for_2]
        ++ (if o.try_lock_for_2 then [Event.unlockEv .sharedMode] else [])
        ++ [Event.throwLockFailed d.timeout_ms o.try_lock_for_2],
       .lockFailed d.timeout_ms o.try_lock_for_2))
  ∧ (write_ptr_lock d o =
      ([Event.readTimeout d.timeout_ms, Event.tryLock .exclusiveMode false,
        Event.tryLockFor .exclusiveMode d.timeout_ms false,
        Event.tryLockFor .exclusiveMode d.timeout_ms o.try_lock_for_2]
        ++ (if o.try_lock_for_2 then [Event.unlockEv .exclusiveMode] else [])
        ++ [Event.throwLockFailed d.timeout_ms o.try_lock_for_2],
       .lockFailed d.timeout_ms o.try_lock_for_2))
  ∧ ((read_ptr_lock d o).1.countP Event.isTimedWait = 2)
  ∧ ((write_ptr_lock d o).1.countP Event.isTimedWait = 2) := by
  have hr : read_ptr_lock d o =
      ([Event.readTimeout d.timeout_ms, Event.tryLock .sharedMode false,
        Event.tryLockFor .sharedMode d.timeout_ms false,
        Event.tryLockFor .sharedMode d.timeout_ms o.try_lock_for_2]
        ++ (if o.try_lock_for_2 then [Event.unlockEv .sharedMode] else [])
        ++ [Event.throwLockFailed d.timeout_ms o.try_lock_for_2],
       .lockFailed d.timeout_ms o.try_lock_for_2) := by
    simp [read_ptr_lock, h1, h2, h3]
  have hw : write_ptr_lock d o =
      ([Event.readTimeout d.timeout_ms, Event.tryLock .exclusiveMode false,
        Event.tryLockFor .exclusiveMode d.timeout_ms false,
        Event.tryLockFor .exclusiveMode d.timeout_ms o.try_lock_for_2]
        ++ (if o.try_lock_for_2 then [Event.unlockEv .exclusiveMode] else [])
        ++ [Event.throwLockFailed d.timeout_ms o.try_lock_for_2],
       .lockFailed d.timeout_ms o.try_lock_for_2) := by
    simp [write_ptr_lock, h1, h2, h3]
  refine ⟨hr, hw, ?_, ?_⟩
  · rw [hr]
    cases o.try_lock_for_2 <;>
      simp [Event.isTimedWait, List.countP_cons, List.countP_append]
  · rw [hw]
    cases o.try_lock_for_2 <;>
      simp [Event.isTimedWait, List.countP_cons, List.countP_append]

/-- Witness for C1 at the default configuration (timeout 100 ms) with a
first timed attempt that fails and a second that succeeds. -/
theorem deadlock_probe_second_attempt_witness :
    (read_ptr_lock detailsDefault ⟨false, false, true⟩).2
      = .lockFailed 100 true
  ∧ (write_ptr_lock detailsDefault ⟨false, false, true⟩).2
      = .lockFailed 100 true := by
  have h := deadlock_probe_second_attempt detailsDefault
    ⟨false, false, true⟩ rfl (by decide) rfl
  exact ⟨by rw [h.1]; rfl, by rw [h.2.1]; rfl⟩

/-- Claim C2: every blocking acquisition follows the decision tree in
order: the first lock attempt (trace position 1, right after the timeout
read) is the single non-blocking attempt; the guard is returned exactly
when that attempt, the indefinite acquisition (taken only when the timeout
is negative) or the first timed acquisition succeeds; an indefinite
blocking acquisition happens exactly when the non-blocking attempt failed
and the timeout is negative; timed attempts happen only with a
non-negative timeout after the non-blocking attempt failed, once when the
first succeeds; and only when the first timed attempt times out does the
deadlock probe run (a second timed attempt, count 2) followed by the
single raise. -/
theorem lock_decision_tree (d : shared_state_details) (o : MutexOracle) :
    ((read_ptr_lock d o).1[1]?
       = some (Event.tryLock .sharedMode o.try_lock))
  ∧ ((write_ptr_lock d o).1[1]?
       = some (Event.tryLock .exclusiveMode o.try_lock))
  ∧ ((read_ptr_lock d o).2.isAcquired
       = (o.try_lock || decide (d.timeout_ms < 0) || o.try_lock_for_1))
  ∧ ((write_ptr_lock d o).2.isAcquired
       = (o.try_lock || decide (d.timeout_ms < 0) || o.try_lock_for_1))
  ∧ ((read_ptr_lock d o).1.countP Event.isBlockingWait
       = if o.try_lock then 0 else if d.timeout_ms < 0 then 1 else 0)
  ∧ ((write_ptr_lock d o).1.countP Event.isBlockingWait
       = if o.try_lock then 0 else if d.timeout_ms < 0 then 1 else 0)
  ∧ ((read_ptr_lock d o).1.countP Event.isTimedWait
       = if o.try_lock then 0 else if d.timeout_ms < 0 then 0
         else if o.try_lock_for_1 then 1 else 2)
  ∧ ((write_ptr_lock d o).1.countP Event.isTimedWait
       = if o.try_lock then 0 else if d.timeout_ms < 0 then 0
         else if o.try_lock_for_1 then 1 else 2)
  ∧ ((read_ptr_lock d o).1.countP Event.isThrow
       = if o.try_lock || decide (d.timeout_ms < 0) || o.try_lock_for_1
         then 0 else 1)
  ∧ ((write_ptr_lock d o).1.countP Event.isThrow
       = if o.try_lock || decide (d.timeout_ms < 0) || o.try_lock_for_1
         then 0 else 1) := by
  rcases o with ⟨t, f1, f2⟩
  by_cases hn : d.timeout_ms < 0 <;>
    by_cases hv : 0 < d.verify_execution_time_ms <;>
      cases t <;> cases f1 <;> cases f2 <;>
        simp [read_ptr_lock, write_ptr_lock, startWatcherIf, hn, hv,
          LockOutcome.isAcquired, Event.isTimedWait, Event.isBlockingWait,
          Event.isThrow, List.countP_cons, List.countP_append]

/-- Claim C3: `try_read()` and `try_write()` never raise `lock_failed` and
never perform a timed (or indefinite) wait: their traces contain exactly
one non-blocking attempt and no throw, timed-wait or blocking-wait event;
on success the guard is returned, and on failure the returned guard is
empty — `get ()` and the boolean conversion are null/false — with no error
constructed. -/
theorem try_paths_never_fail (d : shared_state_details) (o : MutexOracle) :
    ((try_read d o).2 = ⟨o.try_lock, o.try_lock && (startWatcherIf d).2⟩)
  ∧ ((try_write d o).2 = ⟨o.try_lock, o.try_lock && (startWatcherIf d).2⟩)
  ∧ ((try_read d o).2.toBool = o.try_lock)
  ∧ ((try_write d o).2.toBool = o.try_lock)
  ∧ ((try_read d o).2.get = o.try_lock)
  ∧ ((try_write d o).2.get = o.try_lock)
  ∧ ((try_read d o).1.countP Event.isTryLock = 1)
  ∧ ((try_write d o).1.countP Event.isTryLock = 1)
  ∧ ((try_read d o).1.countP Event.isThrow = 0)
  ∧ ((try_write d o).1.countP Event.isThrow = 0)
  ∧ ((try_read d o).1.countP Event.isTimedWait = 0)
  ∧ ((try_write d o).1.countP Event.isTimedWait = 0)
  ∧ ((try_read d o).1.countP Event.isBlockingWait = 0)
  ∧ ((try_write d o).1.countP Event.isBlockingWait = 0) := by
  rcases o with ⟨t, f1, f2⟩
  by_cases hv : 0 < d.verify_execution_time_ms <;>
    cases t <;>
      simp [try_read, try_write, startWatcherIf, hv, guard_state.get,
        guard_state.toBool, Event.isTryLock, Event.isThrow,
        Event.isTimedWait, Event.isBlockingWait, List.countP_cons,
        List.countP_append]

/-- Claim C4: destroying a guard that holds the lock releases the mutex —
in shared mode for a read guard, exclusive mode for a write guard — and
this holds for any value of the unwinding flag, i.e. also during stack
unwinding from an exception (the guard destructors contain no unwinding
test); after the destructor or after `unlock ()`, the guard no longer
holds the mutex. -/
theorem guard_destructor_releases (g : guard_state)
    (held unwinding : Bool) (h : g.px = true) :
    ((read_ptr_destructor unwinding g held).2.2.countP
        (Event.isUnlockOf .sharedMode) = 1)
  ∧ ((read_ptr_destructor unwinding g held).2.1 = false)
  ∧ ((write_ptr_destructor unwinding g held).2.2.countP
        (Event.isUnlockOf .exclusiveMode) = 1)
  ∧ ((write_ptr_destructor unwinding g held).2.1 = false)
  ∧ ((read_ptr_unlock g held).2.1 = false)
  ∧ ((write_ptr_unlock g held).2.1 = false) := by
  rcases g with ⟨px, pc⟩
  cases h
  cases pc <;>
    simp [read_ptr_destructor, write_ptr_destructor, read_ptr_unlock,
      write_ptr_unlock, Event.isUnlockOf, List.countP_cons,
      List.countP_append]

/-- Witness for C4: a guard with a held watcher, destroyed while
unwinding. -/
theorem guard_destructor_releases_witness :
    ((read_ptr_destructor true ⟨true, true⟩ true).2.2.countP
        (Event.isUnlockOf .sharedMode) = 1)
  ∧ ((write_ptr_destructor true ⟨true, true⟩ true).2.1 = false) := by
  have h := guard_destructor_releases ⟨true, true⟩ true true rfl
  exact ⟨h.1, h.2.2.2.1⟩

/-- Claim C10: `unlock ()` is idempotent.  For a guard holding the lock,
the first `unlock ()` emits exactly one release in the guard's mode and
nulls the guard (`get ()` and the boolean conversion become false); a
subsequent `unlock ()` — and the destructor running afterwards — leaves
the state unchanged and emits no events at all, so the mutex is released
exactly once per successful acquisition. -/
theorem unlock_idempotent (g : guard_state)
    (held unwinding : Bool) (h : g.px = true) :
    ((read_ptr_unlock g held).2.2.countP
        (Event.isUnlockOf .sharedMode) = 1)
  ∧ ((write_ptr_unlock g held).2.2.countP
        (Event.isUnlockOf .exclusiveMode) = 1)
  ∧ ((read_ptr_unlock g held).1.get = false)
  ∧ ((read_ptr_unlock g held).1.toBool = false)
  ∧ ((write_ptr_unlock g held).1.get = false)
  ∧ ((write_ptr_unlock g held).1.toBool = false)
  ∧ ((read_ptr_unlock g held).2.1 = false)
  ∧ ((write_ptr_unlock g held).2.1 = false)
  ∧ (read_ptr_unlock (read_ptr_unlock g held).1 (read_ptr_unlock g held).2.1
       = ((read_ptr_unlock g held).1, (read_ptr_unlock g held).2.1, []))
  ∧ (write_ptr_unlock (write_ptr_unlock g held).1
        (write_ptr_unlock g held).2.1
       = ((write_ptr_unlock g held).1, (write_ptr_unlock g held).2.1, []))
  ∧ (read_ptr_destructor unwinding (read_ptr_unlock g held).1
        (read_ptr_unlock g held).2.1
       = ((read_ptr_unlock g held).1, (read_ptr_unlock g held).2.1, []))
  ∧ (write_ptr_destructor unwinding (write_ptr_unlock g held).1
        (write_ptr_unlock g held).2.1
       = ((write_ptr_unlock g held).1, (write_ptr_unlock g held).2.1, [])) := by
  rcases g with ⟨px, pc⟩
  cases h
  cases pc <;>
    simp [read_ptr_unlock, write_ptr_unlock, read_ptr_destructor,
      write_ptr_destructor, guard_state.get, guard_state.toBool,
      Event.isUnlockOf, List.countP_cons, List.countP_append]

/-- Witness for C10: a guard with a held watcher; the release happens once
and the repeated unlock is a no-op. -/
theorem unlock_idempotent_witness :
    ((read_ptr_unlock ⟨true, true⟩ true).2.2.countP
        (Event.isUnlockOf .sharedMode) = 1)
  ∧ (read_ptr_unlock (read_ptr_unlock ⟨true, true⟩ true).1
        (read_ptr_unlock ⟨true, true⟩ true).2.1
       = ((read_ptr_unlock ⟨true, true⟩ true).1,
          (read_ptr_unlock ⟨true, true⟩ true).2.1, [])) := by
  have h := unlock_idempotent ⟨true, true⟩ true false rfl
  exact ⟨h.1, h.2.2.2.2.2.2.2.2.1⟩

/-- Counterexample to claim C5: with a traits whose `timeout_ms ()` returns
the call index (call 0 returns 0, call 1 returns 1, ...), the second
acquisition (index 1) on a cell built from it still uses timeout 0 — the
value cached by the single construction-time call — whereas a fresh call
per acquisition would yield 1.  So acquisitions do not obtain their timeout
by a fresh call to the traits' timeout accessor. -/
theorem timeout_fresh_call_cex :
    timeout_ms_usedByAcquisition traitsVarying 1 = 0
  ∧ timeout_ms_freshPerAcquisition traitsVarying 1 = 1
  ∧ timeout_ms_usedByAcquisition traitsVarying 1
      ≠ timeout_ms_freshPerAcquisition traitsVarying 1 := by
  refine ⟨rfl, rfl, ?_⟩
  decide

/-- Claim C5 (amended): every acquisition through `read()` or `write()`
reads its timeout once, at the start of the acquisition and before any
lock attempt, from the details' cached `timeout_ms` field; that field was
obtained by a single call to the traits' timeout accessor when the cell
was constructed, so every acquisition — whatever its index — uses the
value of that one construction-time call. -/
theorem timeout_read_once_cached (traits : TraitsCalls) (n : Nat)
    (o : MutexOracle) :
    ((shared_state_details_mk traits).timeout_ms = traits.timeout_ms 0)
  ∧ (timeout_ms_usedByAcquisition traits n = traits.timeout_ms 0)
  ∧ ((read_ptr_lock (shared_state_details_mk traits) o).1[0]?
       = some (Event.readTimeout (traits.timeout_ms 0)))
  ∧ ((write_ptr_lock (shared_state_details_mk traits) o).1[0]?
       = some (Event.readTimeout (traits.timeout_ms 0)))
  ∧ ((read_ptr_lock (shared_state_details_mk traits) o).1.countP
        Event.isReadTimeout = 1)
  ∧ ((write_ptr_lock (shared_state_details_mk traits) o).1.countP
        Event.isReadTimeout = 1) := by
  rcases o with ⟨t, f1, f2⟩
  by_cases hn : traits.timeout_ms 0 < 0 <;>
    by_cases hv : 0 < traits.verify_execution_time_ms 0 <;>
      cases t <;> cases f1 <;> cases f2 <;>
        simp [read_ptr_lock, write_ptr_lock, startWatcherIf,
          shared_state_details_mk, timeout_ms_usedByAcquisition, hn, hv,
          Event.isReadTimeout, List.countP_cons, List.countP_append]

/-- Counterexample to claim C6: on a cell configured with timeout 0 whose
mutex happens to be free, `read()` succeeds — the non-blocking attempt
gets the lock, no `lock_failed` is raised and no deadlock probe runs — so
an acquisition with timeout 0 is not guaranteed to fail. -/
theorem zero_timeout_cex :
    (read_ptr_lock ⟨0, -1, none⟩ ⟨true, false, false⟩).2
      = .acquired ⟨true, false⟩
  ∧ (read_ptr_lock ⟨0, -1, none⟩ ⟨true, false, false⟩).1.countP
      Event.isThrow = 0
  ∧ (write_ptr_lock ⟨0, -1, none⟩ ⟨true, false, false⟩).2
      = .acquired ⟨true, false⟩
  ∧ (write_ptr_lock ⟨0, -1, none⟩ ⟨true, false, false⟩).1.countP
      Event.isThrow = 0 := by
  decide

/-- Claim C6 (amended): on a cell whose configured timeout equals 0, an
acquisition through `read()` or `write()` never blocks waiting for the
lock — no indefinite acquisition and every timed attempt has budget 0 —
and whenever the lock is not acquired by the non-blocking attempt or the
zero-budget timed attempt it fails by raising `lock_failed` carrying
timeout 0, going through the full timed path including the deadlock probe
(two zero-budget timed attempts) and the error construction. -/
theorem zero_timeout_fast_fail (d : shared_state_details) (o : MutexOracle)
    (h : d.timeout_ms = 0) :
    ((read_ptr_lock d o).1.all (fun e => !e.hasPositiveWait) = true)
  ∧ ((write_ptr_lock d o).1.all (fun e => !e.hasPositiveWait) = true)
  ∧ ((read_ptr_lock d o).2.isAcquired = (o.try_lock || o.try_lock_for_1))
  ∧ ((write_ptr_lock d o).2.isAcquired = (o.try_lock || o.try_lock_for_1))
  ∧ ((read_ptr_lock d o).2
       = if o.try_lock || o.try_lock_for_1
         then .acquired ⟨true, (startWatcherIf d).2⟩
         else .lockFailed 0 o.try_lock_for_2)
  ∧ ((write_ptr_lock d o).2
       = if o.try_lock || o.try_lock_for_1
         then .acquired ⟨true, (startWatcherIf d).2⟩
         else .lockFailed 0 o.try_lock_for_2)
  ∧ ((read_ptr_lock d o).1.countP Event.isTimedWait
       = if o.try_lock then 0 else if o.try_lock_for_1 then 1 else 2)
  ∧ ((write_ptr_lock d o).1.countP Event.isTimedWait
       = if o.try_lock then 0 else if o.try_lock_for_1 then 1 else 2)
  ∧ ((read_ptr_lock d o).1.countP Event.isThrow
       = if o.try_lock || o.try_lock_for_1 then 0 else 1)
  ∧ ((write_ptr_lock d o).1.countP Event.isThrow
       = if o.try_lock || o.try_lock_for_1 then 0 else 1) := by
  rcases o with ⟨t, f1, f2⟩
  by_cases hv : 0 < d.verify_execution_time_ms <;>
    cases t <;> cases f1 <;> cases f2 <;>
      simp [read_ptr_lock, write_ptr_lock, startWatcherIf, h, hv,
        LockOutcome.isAcquired, Event.hasPositiveWait, Event.isTimedWait,
        Event.isThrow, List.countP_cons, List.countP_append]

/-- Witness for the amended C6: timeout 0, mutex contended throughout —
no positive wait and a raised `lock_failed` with timeout 0. -/
theorem zero_timeout_fast_fail_witness :
    ((read_ptr_lock ⟨0, -1, none⟩ ⟨false, false, false⟩).1.all
        (fun e => !e.hasPositiveWait) = true)
  ∧ ((read_ptr_lock ⟨0, -1, none⟩ ⟨false, false, false⟩).2
       = .lockFailed 0 false) := by
  have h := zero_timeout_fast_fail ⟨0, -1, none⟩ ⟨false, false, false⟩ rfl
  exact ⟨h.1, by rw [h.2.2.2.2.1]; rfl⟩

/-- Claim C7: upgrading a weak handle yields a usable cell — boolean
conversion true, both the value pointer and the details pointer set —
exactly when both non-owning halves are still alive; when either half has
been dropped the upgrade returns an empty cell (boolean conversion
false). -/
theorem weak_upgrade_iff_both_halves (w : weak_ptr) :
    ((w.lock).toBool = (w.p.isSome && w.data.isSome))
  ∧ ((w.lock).p.isSome = (w.p.isSome && w.data.isSome))
  ∧ ((w.lock).d.isSome = (w.p.isSome && w.data.isSome))
  ∧ (w.lock = if w.p.isSome && w.data.isSome
              then ⟨w.p, w.data⟩ else ⟨none, none⟩) := by
  rcases w with ⟨data, p⟩
  cases data <;> cases p <;>
    simp [weak_ptr.lock, shared_state_model.toBool]

/-- Claim C8: the execution-time watcher's destructor invokes the
reporting callback, with the pair (expected, observed), exactly when the
observed elapsed time strictly exceeds the expected duration and the
destructor is not running during stack unwinding from an exception;
otherwise no callback is invoked. -/
theorem vet_report_iff (uncaught : Bool) (expected observed : ℚ) :
    (VerifyExecutionTime_destructor uncaught expected observed
        = some (expected, observed)
      ↔ (uncaught = false ∧ expected < observed))
  ∧ (VerifyExecutionTime_destructor uncaught expected observed = none
      ↔ (uncaught = true ∨ ¬ expected < observed))
  ∧ (VerifyExecutionTime_destructor uncaught expected observed
        = some (expected, observed)
     ∨ VerifyExecutionTime_destructor uncaught expected observed
        = none) := by
  cases uncaught <;>
    by_cases hlt : expected < observed <;>
      simp [VerifyExecutionTime_destructor, hlt]

/-- Claim C9: a successful acquisition — via `read()`, `write()`,
`try_read()` or `try_write()` — starts the execution-time watcher exactly
when the cell's `verify_execution_time_ms` is strictly positive; when it
is 0 or negative, no watcher is created (no start event, guard `pc`
empty), and releasing such a guard destroys no watcher, so the report
function is never invoked for that guard (in this model a report can only
arise from destroying a watcher). -/
theorem watcher_started_iff_positive (d : shared_state_details)
    (o : MutexOracle) (g : guard_state) (held : Bool) :
    ((startWatcherIf d).2 = decide (0 < d.verify_execution_time_ms))
  ∧ ((read_ptr_lock d o).2.guardPc
       = ((read_ptr_lock d o).2.isAcquired && (startWatcherIf d).2))
  ∧ ((write_ptr_lock d o).2.guardPc
       = ((write_ptr_lock d o).2.isAcquired && (startWatcherIf d).2))
  ∧ ((read_ptr_lock d o).1.countP Event.isStartWatcher
       = if (read_ptr_lock d o).2.isAcquired && (startWatcherIf d).2
         then 1 else 0)
  ∧ ((write_ptr_lock d o).1.countP Event.isStartWatcher
       = if (write_ptr_lock d o).2.isAcquired && (startWatcherIf d).2
         then 1 else 0)
  ∧ ((try_read d o).2.pc = (o.try_lock && (startWatcherIf d).2))
  ∧ ((try_write d o).2.pc = (o.try_lock && (startWatcherIf d).2))
  ∧ ((try_read d o).1.countP Event.isStartWatcher
       = if o.try_lock && (startWatcherIf d).2 then 1 else 0)
  ∧ ((try_write d o).1.countP Event.isStartWatcher
       = if o.try_lock && (startWatcherIf d).2 then 1 else 0)
  ∧ ((read_ptr_unlock g held).2.2.countP Event.isResetWatcher
       = if g.px && g.pc then 1 else 0)
  ∧ ((write_ptr_unlock g held).2.2.countP Event.isResetWatcher
       = if g.px && g.pc then 1 else 0) := by
  rcases o with ⟨t, f1, f2⟩
  rcases g with ⟨px, pc⟩
  by_cases hn : d.timeout_ms < 0 <;>
    by_cases hv : 0 < d.verify_execution_time_ms <;>
      cases t <;> cases f1 <;> cases f2 <;> cases px <;> cases pc <;>
        simp [read_ptr_lock, write_ptr_lock, try_read, try_write,
          read_ptr_unlock, write_ptr_unlock, startWatcherIf, hn, hv,
          LockOutcome.guardPc, LockOutcome.isAcquired,
          Event.isStartWatcher, Event.isResetWatcher, List.countP_cons,
          List.countP_append]
